import Mathlib

/-!
Verification of the Session layer of the amqp10 AMQP 1.0 client
(`src/lib/session.js`), as a shallow embedding in Lean 4.

JavaScript numbers that hold protocol ids and windows are modelled as `Int`
(they can go negative transiently in the source).  A JavaScript value that can
be `undefined`, `null` or a proper value is modelled by the `Js` type below.
Stateful methods become pure functions `Session → ... → Session × outcome`;
observable side effects (event-emitter notifications, outbound frames,
delegations to Link/Connection collaborators, `console.warn` calls) are
returned as a list of `Effect`s in the order they occur.
-/

namespace AmqpSession

/-- A JavaScript field value that may be `undefined`, `null`, or a value. -/
inductive Js (α : Type) where
  | undef : Js α
  | nul : Js α
  | val : α → Js α
  deriving DecidableEq, Repr

/-- JavaScript `x || d` for a `Js Int` field: `undefined`, `null` and `0` are
falsy (used for `frame.last || first` in the Disposition branch). -/
def jsOrInt : Js Int → Int → Int
  | .val n, d => if n = 0 then d else n
  | .undef, d => d
  | .nul, d => d

/-- Link role, `constants.linkRole` (the Session only compares roles). -/
inductive LinkRole where
  | sender : LinkRole
  | receiver : LinkRole
  deriving DecidableEq, Repr

/-- Session lifecycle states of the `stately.js` machine in the
`Session` constructor (`BEGIN_RCVD` exists in the AMQP state diagram but has
no entry in the machine object; the machine never produces it). -/
inductive SessionState where
  | UNMAPPED : SessionState
  | BEGIN_SENT : SessionState
  | MAPPED : SessionState
  | END_SENT : SessionState
  | END_RCVD : SessionState
  | DISCARDING : SessionState
  deriving DecidableEq, Repr

/-- Events of the stately.js session state machine. -/
inductive SMEvent where
  | sendBegin : SMEvent
  | beginReceived : SMEvent
  | sendEnd : SMEvent
  | endReceived : SMEvent
  deriving DecidableEq, Repr

/-- The transition function encoded by the `stateMachine` object in the
`Session` constructor.  stately.js silently ignores an event that the current
state does not handle, so undefined combinations leave the state unchanged. -/
def smStep : SessionState → SMEvent → SessionState
  | .UNMAPPED, .sendBegin => .BEGIN_SENT
  | .BEGIN_SENT, .beginReceived => .MAPPED
  | .MAPPED, .sendEnd => .END_SENT
  | .MAPPED, .endReceived => .END_RCVD
  | .END_SENT, .endReceived => .UNMAPPED
  | .DISCARDING, .endReceived => .UNMAPPED
  | .END_RCVD, .sendEnd => .UNMAPPED
  | st, _ => st

/-- `this._sessionParams`: the window/id bookkeeping of the session. -/
structure SessionParams where
  nextOutgoingId : Int
  nextIncomingId : Int
  incomingWindow : Int
  outgoingWindow : Int
  remoteIncomingWindow : Int
  remoteOutgoingWindow : Int
  handleMax : Nat
  deriving DecidableEq, Repr

/-- Fields of a Begin frame as read by the Session (`frame.channel` is kept on
the enclosing `Frame`).  `handleMax` may be absent. -/
structure BeginFrame where
  remoteChannel : Option Nat
  nextOutgoingId : Int
  incomingWindow : Int
  outgoingWindow : Int
  handleMax : Option Nat
  deriving DecidableEq, Repr

/-- Fields of a Flow frame as read by the Session. -/
structure FlowFrame where
  handle : Js Nat
  nextIncomingId : Js Int
  incomingWindow : Int
  nextOutgoingId : Int
  outgoingWindow : Int
  deriving DecidableEq, Repr

/-- Fields of a Transfer frame as read by the Session. -/
structure TransferFrame where
  handle : Js Nat
  deliveryId : Js Int
  deriving DecidableEq, Repr

/-- Fields of a Disposition frame as read by the Session.  `dispState` stands
for the opaque `frame.state` payload forwarded in the notification. -/
structure DispositionFrame where
  role : LinkRole
  first : Int
  last : Js Int
  settled : Bool
  dispState : Int
  deriving DecidableEq, Repr

/-- The body of an inbound frame (type-tag dispatch done by `instanceof` in
`_processFrame`); `other` is any frame kind the Session does not process. -/
inductive FrameBody where
  | begin : BeginFrame → FrameBody
  | endf : Bool → FrameBody
  | attach : String → FrameBody
  | detach : Js Nat → FrameBody
  | flow : FlowFrame → FrameBody
  | transfer : TransferFrame → FrameBody
  | disposition : DispositionFrame → FrameBody
  | other : FrameBody
  deriving DecidableEq, Repr

/-- An inbound frame: channel number plus body.  The `endf` boolean is
`frame.error` truthiness. -/
structure Frame where
  channel : Option Nat
  body : FrameBody
  deriving DecidableEq, Repr

/-- Observable side effects of Session methods, in occurrence order:
event-emitter notifications, outbound frames, collaborator delegations, and
`console.warn` calls. -/
inductive Effect where
  | emitMapped : Effect
  | emitUnmapped : Effect
  | emitErrorReceived : Effect
  | emitDispositionReceived : Int → Int → Bool → Int → Effect
  | sendFrameBegin : Effect
  | sendFrameEnd : Effect
  | sendFrameFlow : Effect
  | dissociateSession : Nat → Effect
  | linkAttachReceived : String → Effect
  | linkDetachReceived : Nat → Effect
  | linkFlowReceived : Nat → Effect
  | linkMessageReceived : Nat → Effect
  | warn : Effect
  deriving DecidableEq, Repr

/-- The Session object.  `connection` is whether `this.connection` is defined
(set in the constructor, never cleared).  Maps keyed by numbers or strings are
modelled by lists of their keys (plus the handle for `linksByName`); the
`_transfersInFlight` table is modelled by its list of delivery-id keys, since
the stored `{message, options, sent}` values are only read for debug logging. -/
structure Session where
  connection : Bool
  mapped : Bool
  channel : Option Nat
  remoteChannel : Option Nat
  state : SessionState
  policyFlowControl : Bool
  sessionParams : SessionParams
  initialOutgoingId : Int
  allocatedHandles : List Nat
  linksByName : List (String × Nat)
  linksByRemoteHandle : List Nat
  senderLinks : List Nat
  transfersInFlight : List Int
  deriving DecidableEq, Repr

/-- Key insert for a JavaScript object used as a map (assignment to a key). -/
def insertKey (l : List Int) (k : Int) : List Int :=
  if k ∈ l then l else l ++ [k]

/-- Modelled from the spec: `constants.defaultHandleMax` lives in
`src/lib/constants.js`, which is not part of the provided sources; the spec
(§4.4) only says `handleMax = min(local, frame.handleMax or default)`, so the
default is an unspecified constant (no claim depends on its value). -/
def defaultHandleMax : Nat := 4294967295

/-- `frame.handleMax || constants.defaultHandleMax` (`0` is falsy in JS). -/
def beginHandleMax : Option Nat → Nat
  | some n => if n = 0 then defaultHandleMax else n
  | none => defaultHandleMax

/-- `Session.prototype.begin`: associate a channel (the Connection returns
`ch`), record the session params and the initial outgoing id, drive
`sendBegin`, subscribe to frames, and send a Begin frame.  The policy's
`enableSessionFlowControl` is captured as `fc`. -/
def Session.begin (s : Session) (ch : Nat) (p : SessionParams) (fc : Bool) :
    Session × List Effect :=
  ({ s with
      policyFlowControl := fc
      channel := some ch
      sessionParams := p
      initialOutgoingId := p.nextOutgoingId
      state := smStep s.state .sendBegin },
   [Effect.sendFrameBegin])

/-- Outcome of `Session.prototype.sendMessage`: either the message was handed
to `link._sendMessage` with its delivery id, or an `OverCapacityError` was
thrown. -/
inductive SendOutcome where
  | sent : Int → SendOutcome
  | overCapacityError : SendOutcome
  deriving DecidableEq, Repr

/-- `Session.prototype.sendMessage`: take `messageId = nextOutgoingId`,
increment `nextOutgoingId`, decrement `remoteIncomingWindow` and
`outgoingWindow`; if `remoteIncomingWindow` is now negative, either throw
`OverCapacityError` (flow control enabled; the mutations are kept — JS
exceptions do not roll back assignments) or set both windows to `0` and
proceed; on success record the delivery id in `_transfersInFlight` and
delegate to the link. -/
def Session.sendMessage (s : Session) : Session × SendOutcome :=
  let messageId := s.sessionParams.nextOutgoingId
  let p : SessionParams := { s.sessionParams with
              nextOutgoingId := s.sessionParams.nextOutgoingId + 1
              remoteIncomingWindow := s.sessionParams.remoteIncomingWindow - 1
              outgoingWindow := s.sessionParams.outgoingWindow - 1 }
  if p.remoteIncomingWindow < 0 then
    if s.policyFlowControl then
      ({ s with sessionParams := p }, SendOutcome.overCapacityError)
    else
      let p2 := { p with remoteIncomingWindow := 0, outgoingWindow := 0 }
      ({ s with
          sessionParams := p2
          transfersInFlight := insertKey s.transfersInFlight messageId },
       SendOutcome.sent messageId)
  else
    ({ s with
        sessionParams := p
        transfersInFlight := insertKey s.transfersInFlight messageId },
     SendOutcome.sent messageId)

/-- `Session.prototype.addWindow`: grow `incomingWindow` and send a Flow frame
carrying the current session params. -/
def Session.addWindow (s : Session) (windowSize : Int) : Session × List Effect :=
  ({ s with sessionParams :=
      { s.sessionParams with
          incomingWindow := s.sessionParams.incomingWindow + windowSize } },
   [Effect.sendFrameFlow])

/-- `Session.prototype._nextHandle`'s `for` loop, `fuel` iterations starting
at `hid`: return the first handle not in `allocated`. -/
def nextHandleLoop (allocated : List Nat) (hid : Nat) : Nat → Option Nat
  | 0 => none
  | fuel + 1 =>
    if hid ∈ allocated then nextHandleLoop allocated (hid + 1) fuel
    else some hid

/-- `Session.prototype._nextHandle`: scan `0..handleMax` for the first
unallocated handle; `none` models the thrown `OverCapacityError`. -/
def Session.nextHandle (s : Session) : Option Nat :=
  nextHandleLoop s.allocatedHandles 0 (s.sessionParams.handleMax + 1)

/-- Outcome of `attachLink`: the new link's handle, or the propagated
`OverCapacityError` from `_nextHandle`. -/
inductive AttachOutcome where
  | ok : Nat → AttachOutcome
  | overCapacityError : AttachOutcome
  deriving DecidableEq, Repr

/-- `Session.prototype.attachLink`: allocate a handle, register the new link
in `_allocatedHandles` and `_linksByName`, append sender links to
`_senderLinks`.  (The link's own `attach()` is a collaborator call.) -/
def Session.attachLink (s : Session) (name : String) (role : LinkRole) :
    Session × AttachOutcome :=
  match s.nextHandle with
  | none => (s, AttachOutcome.overCapacityError)
  | some h =>
    ({ s with
        allocatedHandles := s.allocatedHandles ++ [h]
        linksByName := (name, h) :: s.linksByName
        senderLinks := if role = LinkRole.sender then s.senderLinks ++ [h]
                       else s.senderLinks },
     AttachOutcome.ok h)

/-- `Session.prototype._unmap`: if the connection and channel are defined,
unsubscribe, dissociate the channel, clear both channels, clear `mapped`, and
emit the Unmapped notification; otherwise do nothing. -/
def Session.unmap (s : Session) : Session × List Effect :=
  match s.channel with
  | some ch =>
    if s.connection then
      ({ s with remoteChannel := none, channel := none, mapped := false },
       [Effect.dissociateSession ch, Effect.emitUnmapped])
    else (s, [])
  | none => (s, [])

/-- `Session.prototype.end`: if `remoteChannel` is defined, drive `sendEnd`,
send an End frame, and `_unmap` if the machine is already `UNMAPPED`;
otherwise warn and `_unmap` immediately. -/
def Session.end_ (s : Session) : Session × List Effect :=
  match s.remoteChannel with
  | some _ =>
    let s1 := { s with state := smStep s.state .sendEnd }
    if s1.state = SessionState.UNMAPPED then
      let r := s1.unmap
      (r.1, Effect.sendFrameEnd :: r.2)
    else (s1, [Effect.sendFrameEnd])
  | none =>
    let r := s.unmap
    (r.1, Effect.warn :: r.2)

/-- `Session.prototype._beginReceived`: capture the remote channel, seed
`nextIncomingId`/`remoteIncomingWindow`/`remoteOutgoingWindow` from the frame,
combine `handleMax` (JS ternary on the truthiness of the local value, `0` is
falsy), mark mapped, emit the Mapped notification. -/
def Session.beginReceived (s : Session) (ch : Option Nat) (bf : BeginFrame) :
    Session × List Effect :=
  let p := { s.sessionParams with
              nextIncomingId := bf.nextOutgoingId
              remoteIncomingWindow := bf.incomingWindow
              remoteOutgoingWindow := bf.outgoingWindow
              handleMax :=
                if s.sessionParams.handleMax ≠ 0 then
                  min s.sessionParams.handleMax (beginHandleMax bf.handleMax)
                else beginHandleMax bf.handleMax }
  ({ s with remoteChannel := ch, sessionParams := p, mapped := true },
   [Effect.emitMapped])

/-- `Session.prototype._flowReceived`: set `nextIncomingId` from the frame's
`nextOutgoingId` and `remoteOutgoingWindow` from its `outgoingWindow`, then
recompute `remoteIncomingWindow`: from `_initialOutgoingId` when the frame's
`nextIncomingId` is `undefined` or `null`, from the frame's `nextIncomingId`
otherwise. -/
def Session.flowReceived (s : Session) (ff : FlowFrame) : Session :=
  let p := { s.sessionParams with
              nextIncomingId := ff.nextOutgoingId
              remoteOutgoingWindow := ff.outgoingWindow }
  let p2 :=
    match ff.nextIncomingId with
    | .undef =>
      { p with remoteIncomingWindow :=
          s.initialOutgoingId + ff.incomingWindow - p.nextOutgoingId }
    | .nul =>
      { p with remoteIncomingWindow :=
          s.initialOutgoingId + ff.incomingWindow - p.nextOutgoingId }
    | .val n =>
      { p with remoteIncomingWindow :=
          n + ff.incomingWindow - p.nextOutgoingId }
  { s with sessionParams := p2 }

/-- `Session.prototype._transferReceived`: decrement `incomingWindow` and
`remoteOutgoingWindow` (a negative `incomingWindow` is only logged), and if
the frame carries a delivery id, set `nextIncomingId = deliveryId + 1`. -/
def Session.transferReceived (s : Session) (tf : TransferFrame) : Session :=
  let p := { s.sessionParams with
              incomingWindow := s.sessionParams.incomingWindow - 1
              remoteOutgoingWindow := s.sessionParams.remoteOutgoingWindow - 1 }
  let p2 :=
    match tf.deliveryId with
    | .val d => { p with nextIncomingId := d + 1 }
    | .undef => p
    | .nul => p
  { s with sessionParams := p2 }

/-- The `for (messageId = first; messageId <= last; ++messageId)` settlement
loop of the Disposition branch, `fuel` iterations starting at `first`: delete
each tracked id (deleting an absent key is a no-op, only logged). -/
def settleLoop (inFlight : List Int) (first : Int) : Nat → List Int
  | 0 => inFlight
  | n + 1 =>
    settleLoop (inFlight.filter (fun k => k ≠ first)) (first + 1) n

/-- Net effect of the settlement loop over the range `[first, last]`. -/
def settleRange (inFlight : List Int) (first last : Int) : List Int :=
  settleLoop inFlight first (last + 1 - first).toNat

/-- `Session.prototype._processFrame`.  A Begin frame whose `remoteChannel`
matches our channel is handled first; every other frame (including a Begin
frame that fails that test, which falls through all `instanceof` branches to
the final debug case) is dropped unless its channel matches `remoteChannel`.
Effects are listed in occurrence order. -/
def Session.processFrame (s : Session) (fr : Frame) : Session × List Effect :=
  match fr.body with
  | .begin bf =>
    if bf.remoteChannel = s.channel then
      let s1 := { s with state := smStep s.state .beginReceived }
      s1.beginReceived fr.channel bf
    else (s, [])
  | body =>
    if fr.channel = none ∨ ¬ fr.channel = s.remoteChannel then (s, [])
    else
      match body with
      | .endf err =>
        let s1 := { s with state := smStep s.state .endReceived }
        let errEffs := if err then [Effect.emitErrorReceived] else []
        let r2 :=
          if s1.state ≠ SessionState.UNMAPPED then
            ({ s1 with state := smStep s1.state .sendEnd },
             [Effect.sendFrameEnd])
          else (s1, ([] : List Effect))
        let r3 := r2.1.unmap
        (r3.1, errEffs ++ r2.2 ++ r3.2)
      | .attach name =>
        if name ≠ "" ∧ name ∈ s.linksByName.map Prod.fst then
          (s, [Effect.linkAttachReceived name])
        else (s, [Effect.warn])
      | .detach h =>
        match h with
        | .val n =>
          if n ∈ s.linksByRemoteHandle then (s, [Effect.linkDetachReceived n])
          else (s, [Effect.warn])
        | .undef => (s, [Effect.warn])
        | .nul => (s, [Effect.warn])
      | .flow ff =>
        let s1 := s.flowReceived ff
        match ff.handle with
        | .nul =>
          (s1, s1.senderLinks.map (fun h => Effect.linkFlowReceived h))
        | .undef => (s1, [Effect.warn])
        | .val n =>
          if n ∈ s1.linksByRemoteHandle then (s1, [Effect.linkFlowReceived n])
          else (s1, [Effect.warn])
      | .transfer tf =>
        match tf.handle with
        | .val n =>
          if n ∈ s.linksByRemoteHandle then
            (s.transferReceived tf, [Effect.linkMessageReceived n])
          else (s, [Effect.warn])
        | .undef => (s, [Effect.warn])
        | .nul => (s, [Effect.warn])
      | .disposition df =>
        if df.role ≠ LinkRole.receiver then (s, [])
        else
          let first := df.first
          let last := jsOrInt df.last first
          let s1 :=
            if df.settled then
              { s with transfersInFlight :=
                  settleRange s.transfersInFlight first last }
            else s
          (s1, [Effect.emitDispositionReceived first last df.settled df.dispState])
      | .begin _ => (s, [])
      | .other => (s, [])

/-- `M` successive calls to `sendMessage` (outcomes discarded; with flow
control disabled no call throws). -/
def iterateSend : Nat → Session → Session
  | 0, s => s
  | n + 1, s => iterateSend n (s.sendMessage).1

/-! ## Helper lemmas -/

theorem sendMessage_nextOutgoingId (s : Session) :
    (s.sendMessage).1.sessionParams.nextOutgoingId =
      s.sessionParams.nextOutgoingId + 1 := by
  simp only [Session.sendMessage]
  split_ifs <;> rfl

theorem sendMessage_policyFlowControl (s : Session) :
    (s.sendMessage).1.policyFlowControl = s.policyFlowControl := by
  simp only [Session.sendMessage]
  split_ifs <;> rfl

/-- With flow control disabled, one `sendMessage` turns both send-side
windows into `decrement, clamp at zero if the new remote window is
negative`. -/
theorem sendMessage_noFC_windows (s : Session)
    (hfc : s.policyFlowControl = false) :
    (s.sendMessage).1.sessionParams.outgoingWindow =
      (if s.sessionParams.remoteIncomingWindow - 1 < 0 then 0
       else s.sessionParams.outgoingWindow - 1) ∧
    (s.sendMessage).1.sessionParams.remoteIncomingWindow =
      (if s.sessionParams.remoteIncomingWindow - 1 < 0 then 0
       else s.sessionParams.remoteIncomingWindow - 1) := by
  simp only [Session.sendMessage, hfc]
  split_ifs <;> simp_all

theorem iterateSend_nextOutgoingId (M : Nat) (s : Session) :
    (iterateSend M s).sessionParams.nextOutgoingId =
      s.sessionParams.nextOutgoingId + M := by
  induction M generalizing s with
  | zero => simp [iterateSend]
  | succ n ih =>
    rw [iterateSend, ih, sendMessage_nextOutgoingId]
    push_cast
    ring

theorem mem_settleLoop (l : List Int) (f : Int) (n : Nat) (k : Int) :
    k ∈ settleLoop l f n ↔ (k ∈ l ∧ ¬(f ≤ k ∧ k < f + n)) := by
  induction n generalizing l f with
  | zero =>
    simp only [settleLoop]
    constructor
    · intro hk
      refine ⟨hk, ?_⟩
      push_cast
      omega
    · exact fun hk => hk.1
  | succ n ih =>
    rw [settleLoop, ih]
    simp only [List.mem_filter, ne_eq, decide_not, Bool.not_eq_eq_eq_not,
      Bool.not_true, decide_eq_false_iff_not]
    constructor
    · rintro ⟨⟨hk, hne⟩, hr⟩
      refine ⟨hk, ?_⟩
      push_cast at hr ⊢
      omega
    · rintro ⟨hk, hr⟩
      push_cast at hr
      refine ⟨⟨hk, ?_⟩, ?_⟩ <;> omega

theorem mem_settleRange (l : List Int) (f la k : Int) :
    k ∈ settleRange l f la ↔ (k ∈ l ∧ ¬(f ≤ k ∧ k ≤ la)) := by
  rw [settleRange, mem_settleLoop]
  constructor
  · rintro ⟨hk, hr⟩
    refine ⟨hk, ?_⟩
    omega
  · rintro ⟨hk, hr⟩
    refine ⟨hk, ?_⟩
    omega

/-- Settling a range over a table that already contains nothing in the range
is a no-op (list-level, not just membership-level). -/
theorem settleLoop_eq_self (l : List Int) (f : Int) (n : Nat)
    (h : ∀ k ∈ l, ¬(f ≤ k ∧ k < f + n)) : settleLoop l f n = l := by
  induction n generalizing l f with
  | zero => rfl
  | succ n ih =>
    rw [settleLoop]
    have hf : l.filter (fun k => k ≠ f) = l := by
      apply List.filter_eq_self.mpr
      intro a ha
      have := h a ha
      push_cast at this
      simp only [ne_eq, decide_not, Bool.not_eq_eq_eq_not, Bool.not_true,
        decide_eq_false_iff_not]
      omega
    rw [hf]
    apply ih
    intro k hk
    have := h k hk
    push_cast at this ⊢
    omega

theorem settleRange_idem (l : List Int) (f la : Int) :
    settleRange (settleRange l f la) f la = settleRange l f la := by
  conv_lhs => rw [settleRange]
  apply settleLoop_eq_self
  intro k hk
  have := (mem_settleRange l f la k).mp hk
  omega

/-! ## Concrete sessions used to instantiate the theorems -/

/-- A mapped session with room in both send-side windows. -/
def wParams : SessionParams :=
  { nextOutgoingId := 7, nextIncomingId := 0, incomingWindow := 10,
    outgoingWindow := 9, remoteIncomingWindow := 5, remoteOutgoingWindow := 4,
    handleMax := 3 }

/-- A concrete mapped session (channel 4 local, 9 remote, one sender link on
local handle 0, one link known under remote handle 6, delivery id 2 in
flight). -/
def wSession : Session :=
  { connection := true, mapped := true, channel := some 4,
    remoteChannel := some 9, state := SessionState.MAPPED,
    policyFlowControl := false, sessionParams := wParams,
    initialOutgoingId := 0, allocatedHandles := [0],
    linksByName := [("L", 0)], linksByRemoteHandle := [6],
    senderLinks := [0], transfersInFlight := [2] }

/-- `wSession` with flow control enabled and an exhausted remote incoming
window. -/
def wSessionFC : Session :=
  { wSession with
      policyFlowControl := true
      sessionParams := { wParams with remoteIncomingWindow := 0 } }

/-- `wSession` with both send-side windows at the common value 5. -/
def wSession7 : Session :=
  { wSession with
      sessionParams :=
        { wParams with outgoingWindow := 5, remoteIncomingWindow := 5 } }

/-- The Flow frame of the C1 spec scenario at `X = 7`:
`nextIncomingId = X + 1`, `incomingWindow = 5`. -/
def wFlow : FlowFrame :=
  { handle := Js.nul, nextIncomingId := Js.val 8, incomingWindow := 5,
    nextOutgoingId := 11, outgoingWindow := 9 }

/-! ## Claims -/

/-- C1: `_flowReceived` sets `nextIncomingId` to the frame's
`nextOutgoingId`, sets `remoteOutgoingWindow` to the frame's
`outgoingWindow`, and recomputes `remoteIncomingWindow` by exactly one of two
formulas: when the frame's `nextIncomingId` is absent (undefined or null),
`remoteIncomingWindow = initialOutgoingId + frame.incomingWindow -
nextOutgoingId`; when present, `remoteIncomingWindow = frame.nextIncomingId +
frame.incomingWindow - nextOutgoingId`.  In particular, starting from
`nextOutgoingId = X`, after 3 sends and a Flow with `nextIncomingId = X + 1`
and `incomingWindow = 5`, `remoteIncomingWindow` equals 3. -/
theorem claim_C1_flowReceived (s : Session) (ff : FlowFrame) (X : Int)
    (t : Session) :
    ((s.flowReceived ff).sessionParams.nextIncomingId = ff.nextOutgoingId) ∧
    ((s.flowReceived ff).sessionParams.remoteOutgoingWindow =
      ff.outgoingWindow) ∧
    ((ff.nextIncomingId = Js.undef ∨ ff.nextIncomingId = Js.nul) →
      (s.flowReceived ff).sessionParams.remoteIncomingWindow =
        s.initialOutgoingId + ff.incomingWindow -
          s.sessionParams.nextOutgoingId) ∧
    (∀ n : Int, ff.nextIncomingId = Js.val n →
      (s.flowReceived ff).sessionParams.remoteIncomingWindow =
        n + ff.incomingWindow - s.sessionParams.nextOutgoingId) ∧
    (t.sessionParams.nextOutgoingId = X →
      ff.nextIncomingId = Js.val (X + 1) → ff.incomingWindow = 5 →
      ((iterateSend 3 t).flowReceived ff).sessionParams.remoteIncomingWindow
        = 3) := by
  refine ⟨?_, ?_, ?_, ?_, ?_⟩
  · cases h : ff.nextIncomingId <;> simp [Session.flowReceived, h]
  · cases h : ff.nextIncomingId <;> simp [Session.flowReceived, h]
  · rintro (h | h) <;> simp [Session.flowReceived, h]
  · intro n h
    simp [Session.flowReceived, h]
  · intro ht hni hiw
    have h3 : (iterateSend 3 t).sessionParams.nextOutgoingId = X + 3 := by
      rw [iterateSend_nextOutgoingId, ht]; norm_num
    simp [Session.flowReceived, hni, hiw, h3]
    omega

/-- C1 witness: the concrete Flow recompute scenario of the spec, at
`X = 7` on the concrete session `wSession`. -/
theorem claim_C1_flowReceived_witness :
    wFlow.nextIncomingId = Js.val (7 + 1) ∧
    ((iterateSend 3 wSession).flowReceived
        wFlow).sessionParams.remoteIncomingWindow = 3 :=
  ⟨by decide,
   (claim_C1_flowReceived wSession wFlow 7 wSession).2.2.2.2 (by decide)
     (by decide) (by decide)⟩

/-- C3: every `sendMessage` call assigns the pre-call `nextOutgoingId` as the
delivery id and increments `nextOutgoingId`; both `remoteIncomingWindow` and
`outgoingWindow` are decremented; if the decremented `remoteIncomingWindow`
is negative with flow control enabled, the call throws over-capacity and the
updated counters stay (no rollback, nothing recorded); with flow control
disabled both windows are set to zero and the send proceeds, recording the
delivery id in the in-flight table. -/
theorem claim_C3_sendMessage (s : Session) :
    ((s.sendMessage).1.sessionParams.nextOutgoingId =
      s.sessionParams.nextOutgoingId + 1) ∧
    (0 ≤ s.sessionParams.remoteIncomingWindow - 1 →
      (s.sendMessage).2 = SendOutcome.sent s.sessionParams.nextOutgoingId ∧
      (s.sendMessage).1.sessionParams.remoteIncomingWindow =
        s.sessionParams.remoteIncomingWindow - 1 ∧
      (s.sendMessage).1.sessionParams.outgoingWindow =
        s.sessionParams.outgoingWindow - 1 ∧
      s.sessionParams.nextOutgoingId ∈ (s.sendMessage).1.transfersInFlight) ∧
    (s.sessionParams.remoteIncomingWindow - 1 < 0 →
      s.policyFlowControl = true →
      (s.sendMessage).2 = SendOutcome.overCapacityError ∧
      (s.sendMessage).1.sessionParams.remoteIncomingWindow =
        s.sessionParams.remoteIncomingWindow - 1 ∧
      (s.sendMessage).1.sessionParams.outgoingWindow =
        s.sessionParams.outgoingWindow - 1) ∧
    (s.sessionParams.remoteIncomingWindow - 1 < 0 →
      s.policyFlowControl = false →
      (s.sendMessage).2 = SendOutcome.sent s.sessionParams.nextOutgoingId ∧
      (s.sendMessage).1.sessionParams.remoteIncomingWindow = 0 ∧
      (s.sendMessage).1.sessionParams.outgoingWindow = 0 ∧
      s.sessionParams.nextOutgoingId ∈ (s.sendMessage).1.transfersInFlight) := by
  refine ⟨sendMessage_nextOutgoingId s, ?_, ?_, ?_⟩
  · intro h
    have hnot : ¬ s.sessionParams.remoteIncomingWindow - 1 < 0 := by omega
    simp [Session.sendMessage, hnot, insertKey]
    split_ifs with hmem
    · exact hmem
    · exact List.mem_append_right _ (by simp)
  · intro h hfc
    simp [Session.sendMessage, h, hfc]
  · intro h hfc
    simp [Session.sendMessage, h, hfc, insertKey]
    split_ifs with hmem
    · exact hmem
    · exact List.mem_append_right _ (by simp)

/-- C3 witness: on `wSession` (window 5, flow control disabled) the send
succeeds with delivery id 7 and decrements both windows. -/
theorem claim_C3_sendMessage_witness :
    (0 : Int) ≤ wSession.sessionParams.remoteIncomingWindow - 1 ∧
    (wSession.sendMessage).2 =
      SendOutcome.sent wSession.sessionParams.nextOutgoingId ∧
    (wSession.sendMessage).1.sessionParams.remoteIncomingWindow =
      wSession.sessionParams.remoteIncomingWindow - 1 :=
  ⟨by decide,
   ((claim_C3_sendMessage wSession).2.1 (by decide)).1,
   ((claim_C3_sendMessage wSession).2.1 (by decide)).2.1⟩

/-- C9 (implicit): when `sendMessage` throws over-capacity (flow control
enabled, `remoteIncomingWindow` negative after the decrement), the failed
delivery id is not recorded in `_transfersInFlight` and `link._sendMessage`
is never invoked (the outcome is the thrown error, and the delegation only
happens on a `sent` outcome), even though `nextOutgoingId` and both windows
were already updated. -/
theorem claim_C9_overCapacity_untracked (s : Session)
    (hfc : s.policyFlowControl = true)
    (hneg : s.sessionParams.remoteIncomingWindow - 1 < 0) :
    (s.sendMessage).2 = SendOutcome.overCapacityError ∧
    (s.sendMessage).1.transfersInFlight = s.transfersInFlight ∧
    (s.sendMessage).1.sessionParams.nextOutgoingId =
      s.sessionParams.nextOutgoingId + 1 ∧
    (s.sendMessage).1.sessionParams.remoteIncomingWindow =
      s.sessionParams.remoteIncomingWindow - 1 ∧
    (s.sendMessage).1.sessionParams.outgoingWindow =
      s.sessionParams.outgoingWindow - 1 := by
  simp [Session.sendMessage, hfc, hneg]

/-- C9 witness: a session with `remoteIncomingWindow = 0` and flow control
enabled rejects the send and tracks nothing. -/
theorem claim_C9_overCapacity_untracked_witness :
    wSessionFC.policyFlowControl = true ∧
    wSessionFC.sessionParams.remoteIncomingWindow - 1 < 0 ∧
    (wSessionFC.sendMessage).2 = SendOutcome.overCapacityError ∧
    (wSessionFC.sendMessage).1.transfersInFlight =
      wSessionFC.transfersInFlight :=
  ⟨rfl, by decide,
   (claim_C9_overCapacity_untracked wSessionFC rfl (by decide)).1,
   (claim_C9_overCapacity_untracked wSessionFC rfl (by decide)).2.1⟩

/-- C7: after `M` sends with flow control disabled and no Flow frames in
between, `outgoingWindow` and `remoteIncomingWindow` both equal
`max 0 (initial - M)` where `initial` is their common (non-negative) starting
value; neither is ever left negative. -/
theorem claim_C7_window_monotonicity (s : Session) (M : Nat) (init : Int)
    (hfc : s.policyFlowControl = false) (hpos : 0 ≤ init)
    (ho : s.sessionParams.outgoingWindow = init)
    (hr : s.sessionParams.remoteIncomingWindow = init) :
    (iterateSend M s).sessionParams.outgoingWindow = max 0 (init - M) ∧
    (iterateSend M s).sessionParams.remoteIncomingWindow = max 0 (init - M) ∧
    0 ≤ (iterateSend M s).sessionParams.outgoingWindow ∧
    0 ≤ (iterateSend M s).sessionParams.remoteIncomingWindow := by
  induction M generalizing s init with
  | zero =>
    rw [iterateSend]
    refine ⟨?_, ?_, ?_, ?_⟩ <;> simp [ho, hr] <;> omega
  | succ n ih =>
    rw [iterateSend]
    obtain ⟨how, hrw⟩ := sendMessage_noFC_windows s hfc
    have hfc' : (s.sendMessage).1.policyFlowControl = false := by
      rw [sendMessage_policyFlowControl]; exact hfc
    have h1 : (s.sendMessage).1.sessionParams.outgoingWindow =
        max 0 (init - 1) := by
      rw [how, ho, hr]; split_ifs <;> omega
    have h2 : (s.sendMessage).1.sessionParams.remoteIncomingWindow =
        max 0 (init - 1) := by
      rw [hrw, hr]; split_ifs <;> omega
    obtain ⟨g1, g2, g3, g4⟩ :=
      ih (s.sendMessage).1 (max 0 (init - 1)) hfc' (le_max_left _ _) h1 h2
    have hmax : max 0 (max 0 (init - 1) - (n : Int)) =
        max 0 (init - ((n : Nat) + 1 : Nat)) := by
      push_cast
      omega
    refine ⟨?_, ?_, g3, g4⟩
    · rw [g1, hmax]
    · rw [g2, hmax]

/-- C5: processing a receiver-role settled Disposition over
`[first, last-or-first]` removes from the in-flight table exactly the
delivery ids in the range that are tracked (untracked ids in the range are
ignored without error), always emits one disposition notification carrying
`{first, last, settled, state}`, and is idempotent: processing the same
settled range again removes nothing. -/
theorem claim_C5_disposition (s : Session) (fr : Frame)
    (df : DispositionFrame) (hb : fr.body = FrameBody.disposition df)
    (hch : fr.channel = s.remoteChannel) (hne : fr.channel ≠ none)
    (hrole : df.role = LinkRole.receiver) (hsettled : df.settled = true) :
    (∀ k : Int, k ∈ (s.processFrame fr).1.transfersInFlight ↔
      (k ∈ s.transfersInFlight ∧
        ¬(df.first ≤ k ∧ k ≤ jsOrInt df.last df.first))) ∧
    ((s.processFrame fr).2 =
      [Effect.emitDispositionReceived df.first (jsOrInt df.last df.first)
        true df.dispState]) ∧
    (((s.processFrame fr).1.processFrame fr).1.transfersInFlight =
      (s.processFrame fr).1.transfersInFlight) := by
  obtain ⟨ch, body⟩ := fr
  simp only at hb hch hne
  subst hb
  have hguard : ¬(ch = none ∨ ¬ch = s.remoteChannel) := by
    push_neg
    exact ⟨hne, hch⟩
  simp only [Session.processFrame, hguard, if_false, hrole, hsettled,
    if_true, ne_eq, not_true_eq_false, ite_false, ite_true]
  exact ⟨fun k => mem_settleRange _ _ _ _, trivial, settleRange_idem _ _ _⟩

/-- The Disposition frame of the C5 spec scenario: receiver role, settled
range `[10, 12]`. -/
def c5df : DispositionFrame :=
  { role := LinkRole.receiver, first := 10, last := Js.val 12,
    settled := true, dispState := 0 }

/-- The C5 Disposition frame on `wSession`'s remote channel. -/
def c5Frame : Frame := { channel := some 9, body := FrameBody.disposition c5df }

/-- `wSession` with only delivery id 11 in flight. -/
def c5Session : Session := { wSession with transfersInFlight := [11] }

/-- C5 witness: settling `[10, 12]` with only id 11 in flight removes 11,
emits the notification, and a repeat settlement is a no-op. -/
theorem claim_C5_disposition_witness :
    c5Frame.channel = c5Session.remoteChannel ∧
    (11 : Int) ∈ c5Session.transfersInFlight ∧
    ¬((11 : Int) ∈ (c5Session.processFrame c5Frame).1.transfersInFlight) ∧
    (c5Session.processFrame c5Frame).2 =
      [Effect.emitDispositionReceived 10 12 true 0] ∧
    ((c5Session.processFrame c5Frame).1.processFrame
        c5Frame).1.transfersInFlight =
      (c5Session.processFrame c5Frame).1.transfersInFlight :=
  ⟨rfl, by decide,
   fun h =>
     (((claim_C5_disposition c5Session c5Frame c5df rfl rfl (by decide) rfl
        rfl).1 11).mp h).2 (by decide),
   (claim_C5_disposition c5Session c5Frame c5df rfl rfl (by decide) rfl
     rfl).2.1,
   (claim_C5_disposition c5Session c5Frame c5df rfl rfl (by decide) rfl
     rfl).2.2⟩

/-- Characterization of the `_nextHandle` scan loop: it yields `h` exactly
when `h` is in the scanned window, unallocated, and every smaller scanned
handle is allocated (first-free semantics). -/
theorem nextHandleLoop_eq_some_iff (alloc : List Nat) (hid fuel h : Nat) :
    nextHandleLoop alloc hid fuel = some h ↔
      (hid ≤ h ∧ h < hid + fuel ∧ h ∉ alloc ∧
        ∀ h', hid ≤ h' → h' < h → h' ∈ alloc) := by
  induction fuel generalizing hid with
  | zero =>
    simp only [nextHandleLoop]
    constructor
    · intro hc
      cases hc
    · rintro ⟨h1, h2, _, _⟩
      omega
  | succ n ih =>
    rw [nextHandleLoop]
    by_cases hm : hid ∈ alloc
    · rw [if_pos hm, ih]
      constructor
      · rintro ⟨h1, h2, h3, h4⟩
        refine ⟨by omega, by omega, h3, ?_⟩
        intro x hx1 hx2
        rcases Nat.eq_or_lt_of_le hx1 with he | hl
        · exact he ▸ hm
        · exact h4 x hl hx2
      · rintro ⟨h1, h2, h3, h4⟩
        refine ⟨?_, by omega, h3, fun x hx1 hx2 => h4 x (by omega) hx2⟩
        rcases Nat.eq_or_lt_of_le h1 with he | hl
        · exact absurd (he ▸ hm) h3
        · omega
    · rw [if_neg hm]
      constructor
      · intro hc
        injection hc with hc
        subst hc
        exact ⟨le_rfl, by omega, hm, fun x hx1 hx2 => absurd hx2 (by omega)⟩
      · rintro ⟨h1, h2, h3, h4⟩
        rcases Nat.eq_or_lt_of_le h1 with he | hl
        · rw [he]
        · exact absurd (h4 hid le_rfl hl) hm

/-- The `_nextHandle` scan fails exactly when every handle in the scanned
window is allocated. -/
theorem nextHandleLoop_eq_none_iff (alloc : List Nat) (hid fuel : Nat) :
    nextHandleLoop alloc hid fuel = none ↔
      ∀ h, hid ≤ h → h < hid + fuel → h ∈ alloc := by
  induction fuel generalizing hid with
  | zero =>
    simp only [nextHandleLoop]
    constructor
    · intro _ h ha hb
      exact absurd hb (by omega)
    · intro _
      trivial
  | succ n ih =>
    rw [nextHandleLoop]
    by_cases hm : hid ∈ alloc
    · rw [if_pos hm, ih]
      constructor
      · intro hr x hx1 hx2
        rcases Nat.eq_or_lt_of_le hx1 with he | hl
        · exact he ▸ hm
        · exact hr x hl (by omega)
      · intro hr x hx1 hx2
        exact hr x (by omega) (by omega)
    · rw [if_neg hm]
      constructor
      · intro hc
        cases hc
      · intro hr
        exact absurd (hr hid le_rfl (by omega)) hm

/-- `k` consecutive `attachLink` calls (same name-generator policy and role;
the error case leaves the session unchanged there being nothing to undo). -/
def attachIter (s : Session) (name : String) (role : LinkRole) : Nat → Session
  | 0 => s
  | n + 1 => ((attachIter s name role n).attachLink name role).1

theorem attachLink_sessionParams (s : Session) (name : String)
    (role : LinkRole) :
    ((s.attachLink name role).1).sessionParams = s.sessionParams := by
  rw [Session.attachLink]
  cases s.nextHandle <;> rfl

/-- After `j ≤ handleMax + 1` attaches from an empty handle table, the
allocated handles are exactly `0, 1, ..., j - 1`. -/
theorem attachIter_allocatedHandles (s : Session) (name : String)
    (role : LinkRole) (H : Nat) (hH : s.sessionParams.handleMax = H)
    (h0 : s.allocatedHandles = []) :
    ∀ j, j ≤ H + 1 →
      (attachIter s name role j).allocatedHandles = List.range j ∧
      (attachIter s name role j).sessionParams.handleMax = H := by
  intro j
  induction j with
  | zero =>
    intro _
    exact ⟨h0, hH⟩
  | succ n ih =>
    intro hj
    obtain ⟨ha, hm⟩ := ih (by omega)
    rw [attachIter]
    have hnh : (attachIter s name role n).nextHandle = some n := by
      rw [Session.nextHandle, ha, hm]
      refine (nextHandleLoop_eq_some_iff _ _ _ _).mpr
        ⟨Nat.zero_le _, by omega, by simp, ?_⟩
      intro h' _ hlt
      simp only [List.mem_range]
      omega
    rw [Session.attachLink, hnh, ha, List.range_succ]
    exact ⟨rfl, hm⟩

/-- C6: each `attachLink` scans handles `0..handleMax` in increasing order
and allocates the first free one, so any successful attach returns a handle
in `[0, H]` unused by any currently-attached link; from an empty table the
k-th attach (k ≤ H + 1) returns handle `k - 1`; and an attach when all
`H + 1` handles are taken fails with an over-capacity error. -/
theorem claim_C6_handle_allocation (s : Session) (name : String)
    (role : LinkRole) (H : Nat) (hH : s.sessionParams.handleMax = H) :
    (∀ h, (s.attachLink name role).2 = AttachOutcome.ok h →
      h ≤ H ∧ h ∉ s.allocatedHandles ∧
        ∀ h', h' < h → h' ∈ s.allocatedHandles) ∧
    ((∃ h, h ≤ H ∧ h ∉ s.allocatedHandles) →
      ∃ h, (s.attachLink name role).2 = AttachOutcome.ok h) ∧
    ((∀ h, h ≤ H → h ∈ s.allocatedHandles) →
      (s.attachLink name role).2 = AttachOutcome.overCapacityError) ∧
    (s.allocatedHandles = [] → ∀ k, 1 ≤ k → k ≤ H + 1 →
      ((attachIter s name role (k - 1)).attachLink name role).2 =
        AttachOutcome.ok (k - 1)) ∧
    (s.allocatedHandles = [] →
      ((attachIter s name role (H + 1)).attachLink name role).2 =
        AttachOutcome.overCapacityError) := by
  have hok : ∀ h, (s.attachLink name role).2 = AttachOutcome.ok h ↔
      s.nextHandle = some h := by
    intro h
    rw [Session.attachLink]
    cases hn : s.nextHandle with
    | none => simp
    | some m => simp
  refine ⟨?_, ?_, ?_, ?_, ?_⟩
  · intro h hattach
    have := (hok h).mp hattach
    rw [Session.nextHandle, hH] at this
    obtain ⟨_, h2, h3, h4⟩ := (nextHandleLoop_eq_some_iff _ _ _ _).mp this
    exact ⟨by omega, h3, fun h' hlt => h4 h' (Nat.zero_le _) hlt⟩
  · rintro ⟨h, hle, hfree⟩
    rcases hn : s.nextHandle with _ | m
    · rw [Session.nextHandle, hH, nextHandleLoop_eq_none_iff] at hn
      exact absurd (hn h (Nat.zero_le _) (by omega)) hfree
    · exact ⟨m, (hok m).mpr hn⟩
  · intro hall
    rw [Session.attachLink]
    have hn : s.nextHandle = none := by
      rw [Session.nextHandle, hH, nextHandleLoop_eq_none_iff]
      intro h _ hlt
      exact hall h (by omega)
    rw [hn]
  · intro h0 k hk1 hk2
    obtain ⟨ha, hm⟩ := attachIter_allocatedHandles s name role H hH h0
      (k - 1) (by omega)
    have hnh : (attachIter s name role (k - 1)).nextHandle = some (k - 1) := by
      rw [Session.nextHandle, ha, hm]
      refine (nextHandleLoop_eq_some_iff _ _ _ _).mpr
        ⟨Nat.zero_le _, by omega, by simp, ?_⟩
      intro h' _ hlt
      simp only [List.mem_range]
      omega
    rw [Session.attachLink, hnh]
  · intro h0
    obtain ⟨ha, hm⟩ := attachIter_allocatedHandles s name role H hH h0
      (H + 1) le_rfl
    have hnh : (attachIter s name role (H + 1)).nextHandle = none := by
      rw [Session.nextHandle, ha, hm, nextHandleLoop_eq_none_iff]
      intro h _ hlt
      simp only [List.mem_range]
      omega
    rw [Session.attachLink, hnh]

/-- `wSession` with an empty handle table. -/
def c6Session : Session := { wSession with allocatedHandles := [] }

/-- C6 witness: with `handleMax = 3` and an empty table, the 3rd attach
returns handle 2 and the 5th attach fails with over-capacity. -/
theorem claim_C6_handle_allocation_witness :
    c6Session.sessionParams.handleMax = 3 ∧
    c6Session.allocatedHandles = [] ∧
    ((attachIter c6Session "L" LinkRole.sender 2).attachLink "L"
        LinkRole.sender).2 = AttachOutcome.ok 2 ∧
    ((attachIter c6Session "L" LinkRole.sender 4).attachLink "L"
        LinkRole.sender).2 = AttachOutcome.overCapacityError :=
  ⟨rfl, rfl,
   (claim_C6_handle_allocation c6Session "L" LinkRole.sender 3 rfl).2.2.2.1
     rfl 3 (by decide) (by decide),
   (claim_C6_handle_allocation c6Session "L" LinkRole.sender 3 rfl).2.2.2.2
     rfl⟩

/-- The C2 scenario frame: a Transfer on the session's remote channel whose
handle 5 matches no link in `linksByRemoteHandle`. -/
def c2Frame : Frame :=
  { channel := some 9,
    body := FrameBody.transfer
      { handle := Js.val 5, deliveryId := Js.val 0 } }

/-- C2 counterexample: on the concrete mapped session `wSession`
(`incomingWindow = 10`, `remoteOutgoingWindow = 4`, known remote handles
`[6]`), a Transfer for the unknown handle 5 on the matching channel leaves
`incomingWindow` and `remoteOutgoingWindow` unchanged — the claimed
decrement-before-drop does not happen — and the frame is only warned about,
not delivered. -/
theorem claim_C2_counterexample :
    (wSession.processFrame c2Frame).1.sessionParams.incomingWindow =
      wSession.sessionParams.incomingWindow ∧
    ¬((wSession.processFrame c2Frame).1.sessionParams.incomingWindow =
      wSession.sessionParams.incomingWindow - 1) ∧
    (wSession.processFrame c2Frame).1.sessionParams.remoteOutgoingWindow =
      wSession.sessionParams.remoteOutgoingWindow ∧
    (wSession.processFrame c2Frame).2 = [Effect.warn] := by
  decide

/-- C2 (amended): an inbound Transfer frame on the session's remote channel
whose handle is not routable (null, undefined, or not a key of
`linksByRemoteHandle`) is dropped with only a warning: it is not delivered
to any Link and the session — its `incomingWindow` and
`remoteOutgoingWindow` included — is left completely unchanged; the
session-level window decrements of `_transferReceived` happen only for
transfers whose handle is known. -/
theorem claim_C2_transfer_unknown (s : Session) (fr : Frame)
    (tf : TransferFrame) (hb : fr.body = FrameBody.transfer tf)
    (hch : fr.channel = s.remoteChannel) (hne : fr.channel ≠ none)
    (hunknown : ∀ n : Nat, tf.handle = Js.val n →
      n ∉ s.linksByRemoteHandle) :
    (s.processFrame fr).1 = s ∧ (s.processFrame fr).2 = [Effect.warn] := by
  obtain ⟨ch, body⟩ := fr
  simp only at hb hch hne
  subst hb
  have hguard : ¬(ch = none ∨ ¬ch = s.remoteChannel) := by
    push_neg
    exact ⟨hne, hch⟩
  cases hh : tf.handle with
  | undef => simp [Session.processFrame, hguard, hh]
  | nul => simp [Session.processFrame, hguard, hh]
  | val n =>
    have hmem := hunknown n hh
    simp [Session.processFrame, hguard, hh, hmem]

/-- C2 amended-claim witness: `wSession` and the unknown-handle Transfer. -/
theorem claim_C2_transfer_unknown_witness :
    c2Frame.channel = wSession.remoteChannel ∧
    (wSession.processFrame c2Frame).1 = wSession ∧
    (wSession.processFrame c2Frame).2 = [Effect.warn] :=
  ⟨rfl,
   (claim_C2_transfer_unknown wSession c2Frame
     { handle := Js.val 5, deliveryId := Js.val 0 } rfl rfl (by decide)
     (by intro n hn; injection hn with hn; subst hn; decide)).1,
   (claim_C2_transfer_unknown wSession c2Frame
     { handle := Js.val 5, deliveryId := Js.val 0 } rfl rfl (by decide)
     (by intro n hn; injection hn with hn; subst hn; decide)).2⟩

/-- C10 (implicit): in Flow dispatch, an undefined (absent) handle is not a
broadcast: the session-level `_flowReceived` update still happens first in
every case, but an undefined handle fails the `linksByRemoteHandle` lookup
and produces only a warning, with no link-level forwarding; the broadcast to
every registered sender link runs only when the handle is exactly null. -/
theorem claim_C10_flow_undefined_handle (s : Session) (fr : Frame)
    (ff : FlowFrame) (hb : fr.body = FrameBody.flow ff)
    (hch : fr.channel = s.remoteChannel) (hne : fr.channel ≠ none) :
    (ff.handle = Js.undef →
      (s.processFrame fr).1 = s.flowReceived ff ∧
      (s.processFrame fr).2 = [Effect.warn]) ∧
    (ff.handle = Js.nul →
      (s.processFrame fr).1 = s.flowReceived ff ∧
      (s.processFrame fr).2 =
        s.senderLinks.map (fun h => Effect.linkFlowReceived h)) ∧
    (∀ n : Nat, ff.handle = Js.val n → n ∉ s.linksByRemoteHandle →
      (s.processFrame fr).1 = s.flowReceived ff ∧
      (s.processFrame fr).2 = [Effect.warn]) ∧
    (∀ n : Nat, ff.handle = Js.val n → n ∈ s.linksByRemoteHandle →
      (s.processFrame fr).1 = s.flowReceived ff ∧
      (s.processFrame fr).2 = [Effect.linkFlowReceived n]) := by
  obtain ⟨ch, body⟩ := fr
  simp only at hb hch hne
  subst hb
  have hguard : ¬(ch = none ∨ ¬ch = s.remoteChannel) := by
    push_neg
    exact ⟨hne, hch⟩
  refine ⟨?_, ?_, ?_, ?_⟩
  · intro hh
    simp [Session.processFrame, hguard, hh, Session.flowReceived]
  · intro hh
    simp [Session.processFrame, hguard, hh, Session.flowReceived]
  · intro n hh hmem
    simp [Session.processFrame, hguard, hh, hmem, Session.flowReceived]
  · intro n hh hmem
    simp [Session.processFrame, hguard, hh, hmem, Session.flowReceived]

/-- The C10 Flow frame with an undefined (absent) handle. -/
def c10FrameU : Frame :=
  { channel := some 9,
    body := FrameBody.flow
      { handle := Js.undef, nextIncomingId := Js.undef, incomingWindow := 5,
        nextOutgoingId := 2, outgoingWindow := 6 } }

/-- The same Flow frame with an explicitly null handle. -/
def c10FrameN : Frame :=
  { channel := some 9,
    body := FrameBody.flow
      { handle := Js.nul, nextIncomingId := Js.undef, incomingWindow := 5,
        nextOutgoingId := 2, outgoingWindow := 6 } }

/-- C10 witness: on `wSession` (one sender link on handle 0), the
undefined-handle Flow only warns while the null-handle Flow broadcasts; both
apply the session-level window update. -/
theorem claim_C10_flow_undefined_handle_witness :
    (wSession.processFrame c10FrameU).2 = [Effect.warn] ∧
    (wSession.processFrame c10FrameU).1 =
      wSession.flowReceived
        { handle := Js.undef, nextIncomingId := Js.undef, incomingWindow := 5,
          nextOutgoingId := 2, outgoingWindow := 6 } ∧
    (wSession.processFrame c10FrameN).2 =
      wSession.senderLinks.map (fun h => Effect.linkFlowReceived h) :=
  ⟨((claim_C10_flow_undefined_handle wSession c10FrameU _ rfl rfl
      (by decide)).1 rfl).2,
   ((claim_C10_flow_undefined_handle wSession c10FrameU _ rfl rfl
      (by decide)).1 rfl).1,
   ((claim_C10_flow_undefined_handle wSession c10FrameN _ rfl rfl
      (by decide)).2.1 rfl).2⟩

/-- C8: `end()` with no defined `remoteChannel` performs no state-machine
End transition and sends no End frame — it warns and forces immediate unmap
cleanup instead of a protocol exchange; with a defined `remoteChannel` it
drives `sendEnd`, transmits an End frame, and performs the unmap cleanup
synchronously in the same call exactly when the machine has then reached
`UNMAPPED` (and the channel is still associated). -/
theorem claim_C8_end (s : Session) (hconn : s.connection = true) :
    (s.remoteChannel = none →
      (s.end_).1.state = s.state ∧
      Effect.sendFrameEnd ∉ (s.end_).2 ∧
      Effect.warn ∈ (s.end_).2 ∧
      (∀ ch, s.channel = some ch → Effect.emitUnmapped ∈ (s.end_).2)) ∧
    (∀ rc, s.remoteChannel = some rc →
      (s.end_).1.state = smStep s.state SMEvent.sendEnd ∧
      Effect.sendFrameEnd ∈ (s.end_).2 ∧
      (Effect.emitUnmapped ∈ (s.end_).2 ↔
        (smStep s.state SMEvent.sendEnd = SessionState.UNMAPPED ∧
          ¬s.channel = none))) := by
  constructor
  · intro hrc
    rw [Session.end_, hrc]
    cases hc : s.channel with
    | none => simp [Session.unmap, hc]
    | some ch => simp [Session.unmap, hc, hconn]
  · intro rc hrc
    rw [Session.end_, hrc]
    by_cases hu : smStep s.state SMEvent.sendEnd = SessionState.UNMAPPED
    · cases hc : s.channel with
      | none => simp [hu, Session.unmap, hc]
      | some ch => simp [hu, Session.unmap, hc, hconn]
    · simp [hu]

/-- A session that sent Begin (channel 4) but never saw the peer's Begin:
no `remoteChannel`. -/
def c8Unmapped : Session :=
  { wSession with
      remoteChannel := none
      state := SessionState.BEGIN_SENT
      mapped := false }

/-- C8 witness: ending the never-mapped `c8Unmapped` warns and cleans up
without an End frame; ending the mapped `wSession` sends End without
synchronous cleanup. -/
theorem claim_C8_end_witness :
    c8Unmapped.remoteChannel = none ∧
    Effect.warn ∈ (c8Unmapped.end_).2 ∧
    Effect.sendFrameEnd ∉ (c8Unmapped.end_).2 ∧
    Effect.emitUnmapped ∈ (c8Unmapped.end_).2 ∧
    Effect.sendFrameEnd ∈ (wSession.end_).2 ∧
    ¬(Effect.emitUnmapped ∈ (wSession.end_).2) :=
  ⟨rfl,
   ((claim_C8_end c8Unmapped rfl).1 rfl).2.2.1,
   ((claim_C8_end c8Unmapped rfl).1 rfl).2.1,
   ((claim_C8_end c8Unmapped rfl).1 rfl).2.2.2 4 rfl,
   ((claim_C8_end wSession rfl).2 9 rfl).2.1,
   fun h =>
     (by decide :
       ¬(smStep wSession.state SMEvent.sendEnd = SessionState.UNMAPPED ∧
         ¬wSession.channel = none))
       (((claim_C8_end wSession rfl).2 9 rfl).2.2.mp h)⟩

/-- C4: from `UNMAPPED`, `begin` drives `BEGIN_SENT` and a matching Begin
drives `MAPPED`; from `MAPPED`, `end()` drives `END_SENT` and a subsequent
End frame drives `UNMAPPED`.  Processing an End frame performs the
receive-End transition, emits an error notification exactly when the frame
carries an error, sends our own End frame exactly when the machine is not
yet `UNMAPPED`, and then unmaps (dissociating the channel and emitting one
unmapped notification); after the unmap clears `remoteChannel`, any further
End frame is dropped unchanged, so the cleanup runs exactly once per
mapping. -/
theorem claim_C4_lifecycle (s u : Session) (ch rch : Nat) (p : SessionParams)
    (fc : Bool) (bf : BeginFrame) (fr : Frame) (err : Bool) :
    (s.state = SessionState.UNMAPPED →
      (s.begin ch p fc).1.state = SessionState.BEGIN_SENT) ∧
    (s.state = SessionState.BEGIN_SENT → fr.body = FrameBody.begin bf →
      bf.remoteChannel = s.channel →
      (s.processFrame fr).1.state = SessionState.MAPPED ∧
      (s.processFrame fr).1.mapped = true ∧
      (s.processFrame fr).1.remoteChannel = fr.channel) ∧
    (s.state = SessionState.MAPPED → s.remoteChannel = some rch →
      (s.end_).1.state = SessionState.END_SENT ∧
      (s.end_).2 = [Effect.sendFrameEnd]) ∧
    (fr.body = FrameBody.endf err → fr.channel = s.remoteChannel →
      fr.channel ≠ none → s.connection = true → s.channel = some ch →
      ((s.processFrame fr).1.state =
        (if smStep s.state SMEvent.endReceived = SessionState.UNMAPPED
         then SessionState.UNMAPPED
         else smStep (smStep s.state SMEvent.endReceived)
                SMEvent.sendEnd) ∧
      (Effect.emitErrorReceived ∈ (s.processFrame fr).2 ↔ err = true) ∧
      (Effect.sendFrameEnd ∈ (s.processFrame fr).2 ↔
        ¬smStep s.state SMEvent.endReceived = SessionState.UNMAPPED) ∧
      Effect.emitUnmapped ∈ (s.processFrame fr).2 ∧
      (s.processFrame fr).1.channel = none ∧
      (s.processFrame fr).1.remoteChannel = none)) ∧
    (u.remoteChannel = none → fr.body = FrameBody.endf err →
      (u.processFrame fr).1 = u ∧ (u.processFrame fr).2 = []) := by
  obtain ⟨fch, fbody⟩ := fr
  refine ⟨?_, ?_, ?_, ?_, ?_⟩
  · intro hst
    simp [Session.begin, hst, smStep]
  · intro hst hb hrc
    simp only at hb
    subst hb
    simp [Session.processFrame, hrc, Session.beginReceived, hst, smStep]
  · intro hst hrc
    rw [Session.end_, hrc]
    simp [hst, smStep]
  · intro hb hch hne hconn hchan
    simp only at hb hch hne
    subst hb
    have hguard : ¬(fch = none ∨ ¬fch = s.remoteChannel) := by
      push_neg
      exact ⟨hne, hch⟩
    by_cases hun :
      smStep s.state SMEvent.endReceived = SessionState.UNMAPPED <;>
      cases err <;>
      simp [Session.processFrame, hguard, hun, Session.unmap, hchan, hconn]
  · intro hrc hb
    simp only at hb
    subst hb
    cases fch with
    | none => simp [Session.processFrame]
    | some c => simp [Session.processFrame, hrc]

/-- Initial params for the C4 lifecycle scenario. -/
def c4Params : SessionParams :=
  { nextOutgoingId := 0, nextIncomingId := 0, incomingWindow := 10,
    outgoingWindow := 10, remoteIncomingWindow := 0,
    remoteOutgoingWindow := 0, handleMax := 3 }

/-- A freshly constructed session bound to a connection, before `begin`. -/
def c4s0 : Session :=
  { connection := true, mapped := false, channel := none,
    remoteChannel := none, state := SessionState.UNMAPPED,
    policyFlowControl := false, sessionParams := c4Params,
    initialOutgoingId := 0, allocatedHandles := [], linksByName := [],
    linksByRemoteHandle := [], senderLinks := [], transfersInFlight := [] }

/-- After `begin` on channel 4. -/
def c4sb : Session := (c4s0.begin 4 c4Params false).1

/-- The peer's matching Begin frame (its `remoteChannel` echoes our 4). -/
def c4bf : BeginFrame :=
  { remoteChannel := some 4, nextOutgoingId := 0, incomingWindow := 7,
    outgoingWindow := 7, handleMax := some 3 }

/-- The peer's Begin arrives on the peer's channel 9. -/
def c4BeginFr : Frame := { channel := some 9, body := FrameBody.begin c4bf }

/-- Mapped. -/
def c4sm : Session := (c4sb.processFrame c4BeginFr).1

/-- After `end()`. -/
def c4se : Session := (c4sm.end_).1

/-- The peer's End frame. -/
def c4EndFr : Frame := { channel := some 9, body := FrameBody.endf false }

/-- Unmapped again. -/
def c4su : Session := (c4se.processFrame c4EndFr).1

/-- C4 witness: the full lifecycle on concrete data — begin, matching Begin,
`end()`, peer End (no second End frame is sent, one unmapped notification is
emitted), then a redundant End frame that is dropped unchanged. -/
theorem claim_C4_lifecycle_witness :
    c4sb.state = SessionState.BEGIN_SENT ∧
    c4sm.state = SessionState.MAPPED ∧
    c4se.state = SessionState.END_SENT ∧
    c4su.state = SessionState.UNMAPPED ∧
    Effect.emitUnmapped ∈ (c4se.processFrame c4EndFr).2 ∧
    ¬(Effect.sendFrameEnd ∈ (c4se.processFrame c4EndFr).2) ∧
    c4su.remoteChannel = none ∧
    (c4su.processFrame c4EndFr).1 = c4su ∧
    (c4su.processFrame c4EndFr).2 = [] :=
  ⟨(claim_C4_lifecycle c4s0 c4s0 4 9 c4Params false c4bf c4BeginFr
      false).1 rfl,
   ((claim_C4_lifecycle c4sb c4sb 4 9 c4Params false c4bf c4BeginFr
      false).2.1 (by decide) rfl (by decide)).1,
   ((claim_C4_lifecycle c4sm c4sm 4 9 c4Params false c4bf c4BeginFr
      false).2.2.1 (by decide) (by decide)).1,
   ((claim_C4_lifecycle c4se c4se 4 9 c4Params false c4bf c4EndFr
      false).2.2.2.1 rfl (by decide) (by decide) (by decide) (by decide)).1,
   ((claim_C4_lifecycle c4se c4se 4 9 c4Params false c4bf c4EndFr
      false).2.2.2.1 rfl (by decide) (by decide) (by decide)
      (by decide)).2.2.2.1,
   fun h =>
     (((claim_C4_lifecycle c4se c4se 4 9 c4Params false c4bf c4EndFr
        false).2.2.2.1 rfl (by decide) (by decide) (by decide)
        (by decide)).2.2.1.mp h) (by decide),
   ((claim_C4_lifecycle c4se c4se 4 9 c4Params false c4bf c4EndFr
      false).2.2.2.1 rfl (by decide) (by decide) (by decide)
      (by decide)).2.2.2.2.2,
   ((claim_C4_lifecycle c4su c4su 4 9 c4Params false c4bf c4EndFr
      false).2.2.2.2 (by decide) rfl).1,
   ((claim_C4_lifecycle c4su c4su 4 9 c4Params false c4bf c4EndFr
      false).2.2.2.2 (by decide) rfl).2⟩

/-- C7 witness: 12 sends from a common window of 5 leave both windows at
`max 0 (5 - 12) = 0`. -/
theorem claim_C7_window_monotonicity_witness :
    wSession7.policyFlowControl = false ∧
    wSession7.sessionParams.outgoingWindow = 5 ∧
    wSession7.sessionParams.remoteIncomingWindow = 5 ∧
    (iterateSend 12 wSession7).sessionParams.outgoingWindow =
      max 0 ((5 : Int) - (12 : Nat)) ∧
    (iterateSend 12 wSession7).sessionParams.remoteIncomingWindow =
      max 0 ((5 : Int) - (12 : Nat)) :=
  ⟨rfl, rfl, rfl,
   (claim_C7_window_monotonicity wSession7 12 5 rfl (by decide) rfl rfl).1,
   (claim_C7_window_monotonicity wSession7 12 5 rfl (by decide) rfl rfl).2.1⟩

end AmqpSession
